import Mathlib

/-!
Verification development for the gst-sync-server library: a shallow embedding
of the synchronised-playback server/client code, together with theorems about
the SyncState wire format, the server orchestrator and the client state
machine.

Machine integers: all GStreamer times and durations are guint64; we model them
as Nat with explicit reduction modulo 2^64 wherever the C code can wrap.
JSON values travel through json-glib, whose integer nodes are signed 64-bit:
we model the guint64 to gint64 conversion explicitly (toInt64 / ofInt64).
-/

namespace GstSync

/-- Number of values of a 64-bit machine word. -/
def U64 : Nat := 2 ^ 64

/-- GST_CLOCK_TIME_NONE: the all-ones 64-bit value, used as the unknown
duration sentinel and (cast from guint64 -1) as the end-of-playlist track
sentinel. -/
def CLOCK_TIME_NONE : Nat := U64 - 1

/-- View of a guint64 value (reduced mod 2^64) as a signed two's-complement
gint64, as performed by the C conversion when a guint64 is stored into a
json-glib integer node. -/
def toInt64 (u : Nat) : Int :=
  if u % U64 < 2 ^ 63 then ((u % U64 : Nat) : Int)
  else ((u % U64 : Nat) : Int) - (U64 : Int)

/-- Conversion of a signed gint64 back into a guint64 (the C cast, i.e.
reduction mod 2^64). -/
def ofInt64 (i : Int) : Nat := (i % (U64 : Int)).toNat

/-- Wrapping guint64 subtraction a - b as computed by the C code. -/
def sub64 (a b : Nat) : Nat := (a % U64 + (U64 - b % U64)) % U64

theorem ofInt64_toInt64 (u : Nat) (h : u < U64) : ofInt64 (toInt64 u) = u := by
  unfold ofInt64 toInt64 U64 at *
  split <;> omega

theorem sub64_of_le (a b : Nat) (hb : b ≤ a) (ha : a < U64) :
    sub64 a b = a - b := by
  unfold sub64 U64 at *
  have h1 : a % 2 ^ 64 = a := Nat.mod_eq_of_lt ha
  have h2 : b % 2 ^ 64 = b := Nat.mod_eq_of_lt (lt_of_le_of_lt hb ha)
  rw [h1, h2]
  omega

/-! JSON document model: the AST produced by json-glib's parser.  Integer
nodes hold a gint64. -/

/-- JSON value as handled by json-glib (integer nodes are signed 64-bit). -/
inductive Json where
  | null : Json
  | jbool : Bool → Json
  | jint : Int → Json
  | jstr : String → Json
  | jarr : List Json → Json
  | jobj : List (String × Json) → Json

/-- Member lookup in a JSON object (json_object_get_member); none when the
node is not an object or the member is absent. -/
def Json.getMember : Json → String → Option Json
  | Json.jobj kvs, k => kvs.lookup k
  | _, _ => none

/-! The GstSyncServerInfo data model (sync-server-info.c).  Fields mirror
struct _GstSyncServerInfo; pointer-valued fields (clock_addr, playlist) may be
NULL and are modelled as Option. -/

/-- Playlist value: the GVariant of format (ta(st)) - a current track index
and a list of (uri, duration) pairs. -/
structure Playlist where
  current_track : Nat
  tracks : List (String × Nat)
  deriving DecidableEq, Repr

/-- The sync information document published by the server
(struct _GstSyncServerInfo). -/
structure GstSyncServerInfo where
  version : Nat
  clock_addr : Option String
  clock_port : Nat
  playlist : Option Playlist
  base_time : Nat
  base_time_offset : Nat
  latency : Nat
  stream_start_delay : Nat
  stopped : Bool
  paused : Bool
  deriving DecidableEq, Repr

/-- Property defaults of GstSyncServerInfo (gst_sync_server_info_init and the
pspec defaults installed in gst_sync_server_info_class_init): version defaults
to 1, pointers to NULL, numbers to 0, booleans to FALSE. -/
def defaultInfo : GstSyncServerInfo :=
  { version := 1
    clock_addr := none
    clock_port := 0
    playlist := none
    base_time := 0
    base_time_offset := 0
    latency := 0
    stream_start_delay := 0
    stopped := false
    paused := false }

/-- A legal SyncState: every 64-bit field is in range, the clock port fits the
0..65535 pspec range, and a playlist is present. -/
def legalInfo (s : GstSyncServerInfo) : Prop :=
  s.version < U64 ∧ s.clock_port ≤ 65535 ∧ s.base_time < U64 ∧
  s.base_time_offset < U64 ∧ s.latency < U64 ∧ s.stream_start_delay < U64 ∧
  ∃ pl, s.playlist = some pl ∧ pl.current_track < U64 ∧
    ∀ td ∈ pl.tracks, td.2 < U64

instance (s : GstSyncServerInfo) : Decidable (legalInfo s) := by
  unfold legalInfo
  exact inferInstance

/-! Serialization (json_gobject_to_data on a GstSyncServerInfo).  The object
implements JsonSerializable with a serialize_property vfunc
(gst_sync_server_info_serialize_property), so every readable property is
serialized: the playlist through json_gvariant_serialize, everything else
through json-glib's default pspec serialization (guint64/guint into an int64
node, strings into string nodes, booleans into boolean nodes).  Members appear
in property-installation order. -/

/-- Serialization of a guint64 property value: json-glib stores it in a signed
int64 JSON node (external json-glib behaviour, json_serialize_pspec). -/
def serializeU64 (u : Nat) : Json := Json.jint (toInt64 u)

/-- Serialization of the a(st) track array by json_gvariant_serialize: an
array of two-element arrays, uint64 durations as int64 nodes. -/
def serializeTracks (tracks : List (String × Nat)) : Json :=
  Json.jarr (tracks.map (fun td => Json.jarr [Json.jstr td.1, Json.jint (toInt64 td.2)]))

/-- Serialization of the (ta(st)) playlist tuple by json_gvariant_serialize:
tuples become JSON arrays. -/
def serializePlaylist (pl : Playlist) : Json :=
  Json.jarr [Json.jint (toInt64 pl.current_track), serializeTracks pl.tracks]

/-- Full SyncState wire document (json_gobject_to_data on GstSyncServerInfo,
using gst_sync_server_info_serialize_property for every property). -/
def serializeInfo (s : GstSyncServerInfo) : Json :=
  Json.jobj
    [("version", serializeU64 s.version),
     ("clock-address", match s.clock_addr with
                       | some a => Json.jstr a
                       | none => Json.null),
     ("clock-port", Json.jint (toInt64 s.clock_port)),
     ("playlist", match s.playlist with
                  | some pl => serializePlaylist pl
                  | none => Json.null),
     ("base-time", serializeU64 s.base_time),
     ("base-time-offset", serializeU64 s.base_time_offset),
     ("latency", serializeU64 s.latency),
     ("stream-start-delay", serializeU64 s.stream_start_delay),
     ("stopped", Json.jbool s.stopped),
     ("paused", Json.jbool s.paused)]

/-! Deserialization (json_gobject_from_data).  The toplevel node must be a
JSON object, otherwise the call fails.  Each known property member is then
deserialized; a member that is absent or fails to deserialize is skipped
silently (json_gobject_new), leaving the property at its default. -/

/-- Deserialization of a guint64 property from a JSON node: only an integer
node is accepted; the gint64 is cast back to guint64. -/
def deserializeU64 : Json → Option Nat
  | Json.jint i => some (ofInt64 i)
  | _ => none

/-- Deserialization of the guint clock-port property: the gint64 node value is
truncated to guint and then clamped into the pspec range 0..65535 by
g_param_value_validate inside g_object_set_property. -/
def deserializePort : Json → Option Nat
  | Json.jint i => some (min (ofInt64 i % 2 ^ 32) 65535)
  | _ => none

/-- Deserialization of a boolean property. -/
def deserializeBool : Json → Option Bool
  | Json.jbool b => some b
  | _ => none

/-- Deserialization of a string property; a JSON null yields a NULL string. -/
def deserializeString : Json → Option (Option String)
  | Json.jstr a => some (some a)
  | Json.null => some none
  | _ => none

/-- Deserialization of one (st) track entry by json_gvariant_deserialize: a
two-element array of a string node and an integer node. -/
def deserializeTrack : Json → Option (String × Nat)
  | Json.jarr [Json.jstr a, Json.jint i] => some (a, ofInt64 i)
  | _ => none

/-- Deserialization of a list of (st) track entries, failing as soon as one
entry fails. -/
def deserializeTrackList : List Json → Option (List (String × Nat))
  | [] => some []
  | x :: xs => do
      let t ← deserializeTrack x
      let ts ← deserializeTrackList xs
      pure (t :: ts)

/-- Deserialization of the a(st) track array. -/
def deserializeTracks : Json → Option (List (String × Nat))
  | Json.jarr xs => deserializeTrackList xs
  | _ => none

/-- Deserialization of the (ta(st)) playlist
(gst_sync_server_info_deserialize_property via json_gvariant_deserialize with
the GST_SYNC_SERVER_PLAYLIST_FORMAT_STRING signature). -/
def deserializePlaylist : Json → Option Playlist
  | Json.jarr [a, b] => do
      let cur ← deserializeU64 a
      let tracks ← deserializeTracks b
      pure { current_track := cur, tracks := tracks }
  | _ => none

/-- Helper for json_gobject_new member handling: a member that is absent or
fails to deserialize leaves the property at its default value. -/
def fieldOr {α : Type} (j : Json) (name : String) (f : Json → Option α)
    (dflt : α) : α :=
  match j.getMember name with
  | some v => (f v).getD dflt
  | none => dflt

/-- Full SyncState deserialization (json_gobject_from_data on
GST_TYPE_SYNC_SERVER_INFO): fails when the toplevel is not a JSON object;
otherwise builds an info object starting from the property defaults, skipping
members that fail to deserialize. -/
def deserializeInfo : Json → Option GstSyncServerInfo
  | Json.jobj kvs =>
      let j := Json.jobj kvs
      some
        { version := fieldOr j "version" deserializeU64 defaultInfo.version
          clock_addr := fieldOr j "clock-address" deserializeString defaultInfo.clock_addr
          clock_port := fieldOr j "clock-port" deserializePort defaultInfo.clock_port
          playlist := fieldOr j "playlist" (fun v => (deserializePlaylist v).map some)
            defaultInfo.playlist
          base_time := fieldOr j "base-time" deserializeU64 defaultInfo.base_time
          base_time_offset := fieldOr j "base-time-offset" deserializeU64
            defaultInfo.base_time_offset
          latency := fieldOr j "latency" deserializeU64 defaultInfo.latency
          stream_start_delay := fieldOr j "stream-start-delay" deserializeU64
            defaultInfo.stream_start_delay
          stopped := fieldOr j "stopped" deserializeBool defaultInfo.stopped
          paused := fieldOr j "paused" deserializeBool defaultInfo.paused }
  | _ => none

theorem deserializeTrackList_map (tracks : List (String × Nat))
    (h : ∀ td ∈ tracks, td.2 < U64) :
    deserializeTrackList
      (tracks.map (fun td => Json.jarr [Json.jstr td.1, Json.jint (toInt64 td.2)])) =
      some tracks := by
  induction tracks with
  | nil => rfl
  | cons td rest ih =>
      have hd : td.2 < U64 := h td (by simp)
      have ht : ∀ x ∈ rest, x.2 < U64 := fun x hx => h x (by simp [hx])
      have hr := ih ht
      simp [List.map_cons, deserializeTrackList, deserializeTrack, hr,
        ofInt64_toInt64 td.2 hd]

theorem deserializeTracks_serializeTracks (tracks : List (String × Nat))
    (h : ∀ td ∈ tracks, td.2 < U64) :
    deserializeTracks (serializeTracks tracks) = some tracks := by
  simp [deserializeTracks, serializeTracks, deserializeTrackList_map tracks h]

theorem deserializePlaylist_serializePlaylist (pl : Playlist)
    (hc : pl.current_track < U64) (ht : ∀ td ∈ pl.tracks, td.2 < U64) :
    deserializePlaylist (serializePlaylist pl) = some pl := by
  unfold deserializePlaylist serializePlaylist
  simp [deserializeU64, ofInt64_toInt64 pl.current_track hc,
    deserializeTracks_serializeTracks pl.tracks ht]

/-- Round-trip helper: deserializing a serialized legal SyncState restores it
exactly.  The guint64 to gint64 wrap applied by json-glib on the way out is
cancelled by the gint64 to guint64 cast on the way in, so even the all-ones
CLOCK_TIME_NONE duration survives. -/
theorem info_serialize_roundtrip (s : GstSyncServerInfo) (h : legalInfo s) :
    deserializeInfo (serializeInfo s) = some s := by
  obtain ⟨hv, hp, hb, ho, hl, hd, pl, hpl, hc, ht⟩ := h
  cases s with
  | mk version clock_addr clock_port playlist base_time base_time_offset
      latency stream_start_delay stopped paused =>
    simp only at hpl hv hp hb ho hl hd
    subst hpl
    have hp64 : clock_port < U64 := by unfold U64; omega
    have hp32 : clock_port % 4294967296 = clock_port := Nat.mod_eq_of_lt (by omega)
    unfold serializeInfo deserializeInfo
    simp only [fieldOr, Json.getMember, List.lookup, serializeU64]
    cases clock_addr <;>
      simp [deserializeU64, deserializeBool, deserializeString, deserializePort,
        deserializePlaylist_serializePlaylist pl hc ht,
        ofInt64_toInt64 version hv, ofInt64_toInt64 base_time hb,
        ofInt64_toInt64 base_time_offset ho, ofInt64_toInt64 latency hl,
        ofInt64_toInt64 stream_start_delay hd, ofInt64_toInt64 clock_port hp64,
        hp32, Nat.min_eq_left hp]

/-! Server orchestrator model (sync-server.c).  struct _GstSyncServer holds
the playlist arrays, the base times, the pause bookkeeping and the pipeline;
we model the pipeline by the state, base time and URI the server programmed
into it.  All guint64 arithmetic is reduced modulo 2^64.  The guint64
current_track sentinel -1 is the value CLOCK_TIME_NONE. -/

/-- Pipeline states relevant to the model (GST_STATE_NULL, GST_STATE_PAUSED,
GST_STATE_PLAYING). -/
inductive PState where
  | null : PState
  | paused : PState
  | playing : PState
  deriving DecidableEq, Repr

/-- The server state (struct _GstSyncServer), with the local pipeline
abstracted to the values the server programmed into it. -/
structure GstSyncServer where
  control_addr : Option String
  clock_port : Nat
  latency : Nat
  base_time : Nat
  base_time_offset : Nat
  stream_start_delay : Nat
  last_pause_time : Nat
  last_duration : Nat
  uris : List String
  durations : List Nat
  n_tracks : Nat
  current_track : Nat
  server_started : Bool
  stopped : Bool
  paused : Bool
  pipeline_state : PState
  pipeline_base_time : Nat
  pipeline_uri : String
  deriving DecidableEq, Repr

/-- get_sync_info: the SyncState document built from the current server state
(version stays at its default 1; the playlist is rebuilt from the track
arrays and cursor; the clock provider port and the control address are
published as the clock parameters). -/
def get_sync_info (s : GstSyncServer) : GstSyncServerInfo :=
  { version := 1
    clock_addr := s.control_addr
    clock_port := s.clock_port
    playlist := some { current_track := s.current_track
                       tracks := s.uris.zip s.durations }
    base_time := s.base_time
    base_time_offset := s.base_time_offset
    latency := s.latency
    stream_start_delay := s.stream_start_delay
    stopped := s.stopped
    paused := s.paused }

/-- The C array read durations[i].  Reads with i outside the array are
undefined behaviour in C; the model returns 0 there (callers that can reach
that case are flagged where it matters). -/
def track_duration (s : GstSyncServer) (i : Nat) : Nat := s.durations.getD i 0

/-- Bookkeeping shared by the three advance branches of update_pipeline: add
the given known duration (if any) and the stream start delay to
base_time_offset, and increment current_track, all modulo 2^64. -/
def advance_bookkeeping (s : GstSyncServer) (add : Option Nat) : GstSyncServer :=
  let bto := match add with
             | some d => (s.base_time_offset + d) % U64
             | none => s.base_time_offset
  { s with base_time_offset := (bto + s.stream_start_delay) % U64
           current_track := (s.current_track + 1) % U64 }

/-- update_pipeline in sync-server.c.  Returns the new server state and the
SyncState broadcast as a consequence (broadcast happens from bus_cb once the
requested pipeline state change completes; state changes are modelled as
succeeding, and the completion condition of bus_cb - paused and PAUSED, or
stopped and NULL, or PLAYING - always holds for the state requested here, so
every non-early-return call broadcasts exactly once).  When advancing, the
duration of the finished track is added to base_time_offset, falling back to
last_duration; if neither is known the local advance flag is cleared so that
the base times are reset further down.  When not advancing (and neither
stopped nor paused), base_time is set to the current clock time and
base_time_offset reset to 0. -/
def update_pipeline (s : GstSyncServer) (advance : Bool) (now : Nat) :
    GstSyncServer × Option GstSyncServerInfo :=
  if advance ∧ (s.current_track = CLOCK_TIME_NONE ∨
      (s.current_track + 1) % U64 = s.n_tracks) then
    (s, none)
  else
    let dk := track_duration s s.current_track
    let sa :=
      if advance then
        if dk ≠ CLOCK_TIME_NONE then (advance_bookkeeping s (some dk), true)
        else if s.last_duration ≠ CLOCK_TIME_NONE then
          (advance_bookkeeping s (some s.last_duration), true)
        else (advance_bookkeeping s none, false)
      else (s, false)
    let s1 := sa.1
    let adv := sa.2
    let s2 := { s1 with pipeline_uri := s1.uris.getD s1.current_track "" }
    let s3 :=
      if s2.stopped = false ∧ s2.paused = false then
        let s3a := if adv then s2
                   else { s2 with base_time := now, base_time_offset := 0 }
        { s3a with pipeline_base_time := (s3a.base_time + s3a.base_time_offset) % U64 }
      else s2
    let st := if s3.stopped then PState.null
              else if s3.paused then PState.paused
              else PState.playing
    let s4 := { s3 with pipeline_state := st }
    (s4, some (get_sync_info s4))

/-- gst_sync_server_set_stopped: a no-op when the flag already has the
requested value, otherwise flip the flag and run update_pipeline without
advancing. -/
def gst_sync_server_set_stopped (s : GstSyncServer) (stopped : Bool) (now : Nat) :
    GstSyncServer × Option GstSyncServerInfo :=
  if s.stopped = stopped then (s, none)
  else update_pipeline { s with stopped := stopped } false now

/-- gst_sync_server_set_paused: a no-op when the flag already has the
requested value.  On pause, record last_pause_time.  On unpause, add the
elapsed pause time to base_time_offset, clear last_pause_time and re-apply
the base time to the pipeline.  Then transition the pipeline and broadcast
(from bus_cb, once the state change completes). -/
def gst_sync_server_set_paused (s : GstSyncServer) (paused : Bool) (now : Nat) :
    GstSyncServer × Option GstSyncServerInfo :=
  if s.paused = paused then (s, none)
  else
    let s1 := { s with paused := paused }
    let s2 := if paused then { s1 with last_pause_time := now } else s1
    let s3 :=
      if paused then s2
      else
        let s2a := { s2 with
          base_time_offset := (s2.base_time_offset + sub64 now s2.last_pause_time) % U64
          last_pause_time := CLOCK_TIME_NONE }
        { s2a with pipeline_base_time := (s2a.base_time + s2a.base_time_offset) % U64 }
    let s4 := { s3 with pipeline_state := if paused then PState.paused else PState.playing }
    (s4, some (get_sync_info s4))

/-- The PROP_PLAYLIST handler of gst_sync_server_set_property: store the new
track arrays and cursor; when started, rebuild the pipeline (through NULL)
if the current track index or its URI changed, otherwise just broadcast the
new state. -/
def gst_sync_server_set_playlist (s : GstSyncServer) (uris : List String)
    (durations : List Nat) (current : Nat) (now : Nat) :
    GstSyncServer × Option GstSyncServerInfo :=
  let old_uris := s.uris
  let old_ct := s.current_track
  let old_n := s.n_tracks
  let s1 := { s with uris := uris, durations := durations
                     n_tracks := uris.length, current_track := current }
  if s1.server_started then
    if old_n = 0 ∨ old_ct ≠ current ∨
        old_uris.getD old_ct "" ≠ uris.getD current "" then
      update_pipeline { s1 with pipeline_state := PState.null } false now
    else (s1, some (get_sync_info s1))
  else (s1, none)

/-- The GST_MESSAGE_EOS branch of bus_cb in sync-server.c: drop the pipeline
to NULL, set current_track to the guint64 -1 sentinel when the finished track
was the last one (end-of-playlist), then try to advance. -/
def bus_eos (s : GstSyncServer) (now : Nat) : GstSyncServer × Option GstSyncServerInfo :=
  let s1 := { s with pipeline_state := PState.null }
  let s2 := if (s1.current_track + 1) % U64 = s1.n_tracks
            then { s1 with current_track := CLOCK_TIME_NONE }
            else s1
  update_pipeline s2 true now

/-- gst_sync_server_start: fails (changing nothing) without a playlist,
otherwise runs the first update_pipeline and marks the server started. -/
def gst_sync_server_start (s : GstSyncServer) (now : Nat) :
    GstSyncServer × Option GstSyncServerInfo :=
  if s.n_tracks = 0 then (s, none)
  else
    let r := update_pipeline s false now
    ({ r.1 with server_started := true }, r.2)

/-- A started server playing the first of two tracks, with known durations. -/
def srvA : GstSyncServer :=
  { control_addr := some "10.0.0.1"
    clock_port := 3490
    latency := 300000000
    base_time := 100
    base_time_offset := 7
    stream_start_delay := 3
    last_pause_time := CLOCK_TIME_NONE
    last_duration := 0
    uris := ["file:///a", "file:///b"]
    durations := [10, 20]
    n_tracks := 2
    current_track := 0
    server_started := true
    stopped := false
    paused := false
    pipeline_state := PState.playing
    pipeline_base_time := 107
    pipeline_uri := "file:///a" }

/-- Same server, but the duration of the current track and last_duration are
both the unknown sentinel. -/
def srvB : GstSyncServer :=
  { srvA with durations := [CLOCK_TIME_NONE, 5], last_duration := CLOCK_TIME_NONE }

/-- CLAIM C5. For every server, set_paused with the current value of the
paused flag leaves all state unchanged and publishes nothing; set_paused true
records last_pause_time as the current clock time; and unpausing at clock
time t2 after a pause at clock time t1 increases base_time_offset by exactly
t2 - t1 while leaving base_time unchanged. -/
theorem set_paused_effects (s : GstSyncServer) (n t1 t2 : Nat)
    (hnp : s.paused = false) (h12 : t1 ≤ t2) (ht2 : t2 < U64)
    (hov : s.base_time_offset + (t2 - t1) < U64) :
    (∀ s' : GstSyncServer, ∀ p : Bool, s'.paused = p →
      gst_sync_server_set_paused s' p n = (s', none)) ∧
    (gst_sync_server_set_paused s true t1).1.last_pause_time = t1 ∧
    (gst_sync_server_set_paused (gst_sync_server_set_paused s true t1).1
        false t2).1.base_time_offset = s.base_time_offset + (t2 - t1) ∧
    (gst_sync_server_set_paused (gst_sync_server_set_paused s true t1).1
        false t2).1.base_time = s.base_time := by
  refine ⟨fun s' p hp => by simp [gst_sync_server_set_paused, hp], ?_, ?_, ?_⟩ <;>
    simp [gst_sync_server_set_paused, hnp, sub64_of_le t2 t1 h12 ht2,
      Nat.mod_eq_of_lt hov]

/-- Witness for C5 at a concrete started server: pause at 10, unpause at 30,
the offset grows by exactly 20. -/
theorem set_paused_effects_witness :
    srvA.paused = false ∧ 10 ≤ 30 ∧ 30 < U64 ∧
    srvA.base_time_offset + (30 - 10) < U64 ∧
    (gst_sync_server_set_paused (gst_sync_server_set_paused srvA true 10).1
        false 30).1.base_time_offset = srvA.base_time_offset + (30 - 10) ∧
    (gst_sync_server_set_paused (gst_sync_server_set_paused srvA true 10).1
        false 30).1.base_time = srvA.base_time :=
  ⟨by decide, by decide, by decide, by decide,
    (set_paused_effects srvA 0 10 30 (by decide) (by decide) (by decide)
      (by decide)).2.2.1,
    (set_paused_effects srvA 0 10 30 (by decide) (by decide) (by decide)
      (by decide)).2.2.2⟩

/-- Counterexample to CLAIM C4 as stated: on srvA (playing, base_time 100,
base_time_offset 7), set_stopped true at clock time 200 followed by
set_stopped false at clock time 300 publishes a SyncState with base_time 300
and base_time_offset 0, not the pre-stop values 100 and 7: unstopping does a
fresh start rather than reusing the existing base times. -/
theorem set_stopped_counterexample :
    (gst_sync_server_set_stopped (gst_sync_server_set_stopped srvA true 200).1
        false 300).2.map (fun i => (i.base_time, i.base_time_offset)) =
      some (300, 0) ∧
    (srvA.base_time, srvA.base_time_offset) = (100, 7) := by decide

/-- CLAIM C4 (amended). For a started server with paused and stopped both
false, set_stopped true takes the pipeline to NULL and the published
SyncState differs from the previous one only in the stopped flag (base_time
and base_time_offset unchanged); a subsequent set_stopped false returns the
pipeline to PLAYING but performs a fresh start: base_time becomes the current
clock time and base_time_offset is reset to 0, rather than the pre-stop
values being reused. -/
theorem set_stopped_amended (s : GstSyncServer) (n1 n2 : Nat)
    (hst : s.stopped = false) (hp : s.paused = false) :
    (gst_sync_server_set_stopped s true n1).1.pipeline_state = PState.null ∧
    (gst_sync_server_set_stopped s true n1).2 =
      some { get_sync_info s with stopped := true } ∧
    (gst_sync_server_set_stopped (gst_sync_server_set_stopped s true n1).1
        false n2).1.pipeline_state = PState.playing ∧
    (gst_sync_server_set_stopped (gst_sync_server_set_stopped s true n1).1
        false n2).1.base_time = n2 ∧
    (gst_sync_server_set_stopped (gst_sync_server_set_stopped s true n1).1
        false n2).1.base_time_offset = 0 := by
  refine ⟨?_, ?_, ?_, ?_, ?_⟩ <;>
    simp [gst_sync_server_set_stopped, update_pipeline, advance_bookkeeping,
      get_sync_info, hst, hp]

/-- Witness for the amended C4 at srvA. -/
theorem set_stopped_amended_witness :
    srvA.stopped = false ∧ srvA.paused = false ∧
    (gst_sync_server_set_stopped srvA true 200).1.pipeline_state = PState.null ∧
    (gst_sync_server_set_stopped (gst_sync_server_set_stopped srvA true 200).1
        false 300).1.base_time = 300 :=
  ⟨by decide, by decide,
    (set_stopped_amended srvA 200 300 (by decide) (by decide)).1,
    (set_stopped_amended srvA 200 300 (by decide) (by decide)).2.2.2.1⟩

/-- Counterexample to CLAIM C2 as stated: on srvB the duration of the ending
track and last_duration are both UNKNOWN_DURATION; after the end-of-stream
advance the published base_time_offset is 0 (the server resets the base
times), not the prior offset plus the substituted last_duration plus
stream_start_delay. -/
theorem advance_counterexample :
    (bus_eos srvB 500).2.map GstSyncServerInfo.base_time_offset ≠
      some ((srvB.base_time_offset + srvB.last_duration +
        srvB.stream_start_delay) % U64) ∧
    (bus_eos srvB 500).2.map GstSyncServerInfo.base_time_offset = some 0 := by
  decide

/-- CLAIM C2 (amended). On an end-of-stream advance from track k to track
k+1 (a further track exists), current_track is incremented by exactly one,
and the published base_time_offset equals the prior offset plus the duration
of track k plus stream_start_delay (mod 2^64), substituting last_duration for
the track duration when the latter is UNKNOWN_DURATION and last_duration is
known; when both are UNKNOWN_DURATION and the server is neither stopped nor
paused, the server instead resets: it publishes base_time_offset 0 with
base_time set to the current clock time. -/
theorem advance_amended (s : GstSyncServer) (now : Nat)
    (hct : s.current_track ≠ CLOCK_TIME_NONE)
    (hnext : (s.current_track + 1) % U64 ≠ s.n_tracks) :
    (bus_eos s now).1.current_track = (s.current_track + 1) % U64 ∧
    (track_duration s s.current_track ≠ CLOCK_TIME_NONE →
      (bus_eos s now).2.map GstSyncServerInfo.base_time_offset =
        some ((s.base_time_offset + track_duration s s.current_track +
          s.stream_start_delay) % U64) ∧
      (bus_eos s now).2.map GstSyncServerInfo.base_time = some s.base_time) ∧
    (track_duration s s.current_track = CLOCK_TIME_NONE →
      s.last_duration ≠ CLOCK_TIME_NONE →
      (bus_eos s now).2.map GstSyncServerInfo.base_time_offset =
        some ((s.base_time_offset + s.last_duration +
          s.stream_start_delay) % U64) ∧
      (bus_eos s now).2.map GstSyncServerInfo.base_time = some s.base_time) ∧
    (track_duration s s.current_track = CLOCK_TIME_NONE →
      s.last_duration = CLOCK_TIME_NONE →
      s.stopped = false → s.paused = false →
      (bus_eos s now).2.map GstSyncServerInfo.base_time_offset = some 0 ∧
      (bus_eos s now).2.map GstSyncServerInfo.base_time = some now) := by
  have hguard : ¬(s.current_track = CLOCK_TIME_NONE ∨
      (s.current_track + 1) % U64 = s.n_tracks) := by
    push_neg
    exact ⟨hct, hnext⟩
  refine ⟨?_, fun h1 => ?_, fun h1 h2 => ?_, fun h1 h2 h3 h4 => ?_⟩
  · by_cases h1 : track_duration s s.current_track = CLOCK_TIME_NONE <;>
      by_cases h2 : s.last_duration = CLOCK_TIME_NONE <;>
      by_cases h3 : s.stopped = false ∧ s.paused = false <;>
      simp only [track_duration, List.getD_eq_getElem?_getD] at h1 <;>
      simp [bus_eos, update_pipeline, advance_bookkeeping, get_sync_info,
        hct, hnext, hguard, h1, h2, h3, track_duration]
  · simp only [track_duration, List.getD_eq_getElem?_getD] at h1 ⊢
    by_cases h3 : s.stopped = false ∧ s.paused = false <;>
      simp [bus_eos, update_pipeline, advance_bookkeeping, get_sync_info,
        hct, hnext, hguard, h1, h3, Nat.mod_add_mod, track_duration]
  · simp only [track_duration, List.getD_eq_getElem?_getD] at h1
    by_cases h3 : s.stopped = false ∧ s.paused = false <;>
      simp [bus_eos, update_pipeline, advance_bookkeeping, get_sync_info,
        hct, hnext, hguard, h1, h2, h3, Nat.mod_add_mod, track_duration]
  · simp only [track_duration, List.getD_eq_getElem?_getD] at h1
    simp [bus_eos, update_pipeline, advance_bookkeeping, get_sync_info,
      hct, hnext, hguard, h1, h2, h3, h4, track_duration]

/-- Witness for the amended C2 at srvA: the first track has known duration
10, stream_start_delay is 3, prior offset 7; the advance publishes offset 20
and moves to track 1. -/
theorem advance_amended_witness :
    srvA.current_track ≠ CLOCK_TIME_NONE ∧
    (srvA.current_track + 1) % U64 ≠ srvA.n_tracks ∧
    (bus_eos srvA 200).1.current_track = (srvA.current_track + 1) % U64 :=
  ⟨by decide, by decide, (advance_amended srvA 200 (by decide) (by decide)).1⟩

/-! Traces of server operations, for the base-time monotonicity invariant.
Each entry point carries the system clock reading observed while it runs
(gst_clock_get_time on the monotonic system clock); the clock hypothesis
below states that these readings never decrease along a trace. -/

/-- One server entry point together with the clock reading observed while it
executes. -/
inductive ServerOp where
  | start : Nat → ServerOp
  | set_playlist : List String → List Nat → Nat → Nat → ServerOp
  | set_paused : Bool → Nat → ServerOp
  | set_stopped : Bool → Nat → ServerOp
  | eos : Nat → ServerOp

/-- The clock reading carried by an operation. -/
def ServerOp.now : ServerOp → Nat
  | .start n => n
  | .set_playlist _ _ _ n => n
  | .set_paused _ n => n
  | .set_stopped _ n => n
  | .eos n => n

/-- Dispatch one operation to the corresponding server entry point. -/
def server_step (s : GstSyncServer) : ServerOp → GstSyncServer × Option GstSyncServerInfo
  | .start n => gst_sync_server_start s n
  | .set_playlist u d c n => gst_sync_server_set_playlist s u d c n
  | .set_paused p n => gst_sync_server_set_paused s p n
  | .set_stopped st n => gst_sync_server_set_stopped s st n
  | .eos n => bus_eos s n

/-- Run a list of operations, collecting every SyncState broadcast along the
way, in broadcast order. -/
def server_run (s : GstSyncServer) : List ServerOp → GstSyncServer × List GstSyncServerInfo
  | [] => (s, [])
  | op :: ops =>
      let r := server_step s op
      let rr := server_run r.1 ops
      (rr.1, r.2.toList ++ rr.2)

/-- The clock readings of a trace never decrease, starting from a lower bound
t (the system clock is monotonic). -/
def ClockMono : Nat → List ServerOp → Prop
  | _, [] => True
  | t, op :: ops => t ≤ op.now ∧ ClockMono op.now ops

instance instDecClockMono : (t : Nat) → (ops : List ServerOp) → Decidable (ClockMono t ops)
  | _, [] => Decidable.isTrue trivial
  | t, op :: ops =>
      have _ : Decidable (ClockMono op.now ops) := instDecClockMono op.now ops
      decidable_of_iff (t ≤ op.now ∧ ClockMono op.now ops) Iff.rfl

/-- Chain property over a published sequence, anchored at the base_time of
the state before the first publication: base_time never decreases, and a
strict increase is always published together with base_time_offset 0. -/
def PubChain : Nat → List GstSyncServerInfo → Prop
  | _, [] => True
  | bt, i :: rest =>
      bt ≤ i.base_time ∧ (bt < i.base_time → i.base_time_offset = 0) ∧
      PubChain i.base_time rest

/-- Facts about any single update_pipeline call relevant to base-time
monotonicity: base_time either stays or is refreshed to now with the offset
reset; any published SyncState carries the final base_time and offset; a call
that publishes nothing changes nothing. -/
theorem update_pipeline_facts (s : GstSyncServer) (adv : Bool) (now : Nat)
    (h : s.base_time ≤ now) :
    ((update_pipeline s adv now).1.base_time = s.base_time ∨
      ((update_pipeline s adv now).1.base_time = now ∧
       (update_pipeline s adv now).1.base_time_offset = 0)) ∧
    (update_pipeline s adv now).1.base_time ≤ now ∧
    (∀ i, (update_pipeline s adv now).2 = some i →
      i.base_time = (update_pipeline s adv now).1.base_time ∧
      i.base_time_offset = (update_pipeline s adv now).1.base_time_offset) ∧
    ((update_pipeline s adv now).2 = none → (update_pipeline s adv now).1 = s) := by
  by_cases hg : adv ∧ (s.current_track = CLOCK_TIME_NONE ∨
      (s.current_track + 1) % U64 = s.n_tracks)
  · simp [update_pipeline, hg, h]
  · cases adv with
    | false =>
        by_cases h3 : s.stopped = false ∧ s.paused = false <;>
          simp [update_pipeline, advance_bookkeeping, get_sync_info, hg, h3, h]
    | true =>
        simp only [true_and] at hg
        by_cases h1 : track_duration s s.current_track = CLOCK_TIME_NONE <;>
          by_cases h2 : s.last_duration = CLOCK_TIME_NONE <;>
          by_cases h3 : s.stopped = false ∧ s.paused = false <;>
          simp [update_pipeline, advance_bookkeeping, get_sync_info, hg, h1, h2, h3, h]

/-- Transfer of the update_pipeline facts to a wrapper entry point that first
applies a record update not touching base_time (hypothesis hbt). -/
theorem update_pipeline_step_facts (s0 s : GstSyncServer) (adv : Bool) (now : Nat)
    (hbt : s.base_time = s0.base_time) (h : s0.base_time ≤ now) :
    s0.base_time ≤ (update_pipeline s adv now).1.base_time ∧
    (update_pipeline s adv now).1.base_time ≤ now ∧
    (∀ i, (update_pipeline s adv now).2 = some i →
      i.base_time = (update_pipeline s adv now).1.base_time ∧
      (s0.base_time < i.base_time → i.base_time_offset = 0)) ∧
    ((update_pipeline s adv now).2 = none →
      (update_pipeline s adv now).1.base_time = s0.base_time) := by
  have hf := update_pipeline_facts s adv now (hbt ▸ h)
  refine ⟨?_, hf.2.1, ?_, ?_⟩
  · rcases hf.1 with he | he
    · omega
    · omega
  · intro i hi
    have hip := hf.2.2.1 i hi
    rcases hf.1 with he | he
    · refine ⟨hip.1, fun hlt => ?_⟩
      omega
    · refine ⟨hip.1, fun _ => ?_⟩
      omega
  · intro hn
    rw [hf.2.2.2 hn]
    exact hbt

/-- The per-operation facts needed for the published-chain induction. -/
theorem server_step_facts (s : GstSyncServer) (op : ServerOp)
    (h : s.base_time ≤ op.now) :
    s.base_time ≤ (server_step s op).1.base_time ∧
    (server_step s op).1.base_time ≤ op.now ∧
    (∀ i, (server_step s op).2 = some i →
      i.base_time = (server_step s op).1.base_time ∧
      (s.base_time < i.base_time → i.base_time_offset = 0)) ∧
    ((server_step s op).2 = none → (server_step s op).1.base_time = s.base_time) := by
  cases op with
  | start n =>
      simp only [ServerOp.now] at h
      by_cases h0 : s.n_tracks = 0
      · simp [server_step, gst_sync_server_start, h0, ServerOp.now, h]
      · simp only [server_step, gst_sync_server_start, h0, if_false, ite_false,
          ServerOp.now]
        exact update_pipeline_step_facts s s false n rfl h
  | set_playlist u d c n =>
      simp only [ServerOp.now] at h
      by_cases hs : s.server_started = true
      · by_cases hchg : s.n_tracks = 0 ∨ ¬s.current_track = c ∨
            ¬s.uris.getD s.current_track "" = u.getD c ""
        · simp only [server_step, gst_sync_server_set_playlist, ServerOp.now]
          simp only [hs, if_true, ite_true]
          rw [if_pos hchg]
          exact update_pipeline_step_facts s _ false n rfl h
        · simp only [server_step, gst_sync_server_set_playlist, ServerOp.now]
          simp only [hs, if_true, ite_true]
          rw [if_neg hchg]
          simp [get_sync_info, h]
      · simp only [server_step, gst_sync_server_set_playlist, ServerOp.now]
        simp [hs, h]
  | set_paused p n =>
      simp only [ServerOp.now] at h
      by_cases hp : s.paused = p
      · simp [server_step, gst_sync_server_set_paused, hp, ServerOp.now, h]
      · cases p with
        | true =>
            simp [server_step, gst_sync_server_set_paused, hp, ServerOp.now,
              get_sync_info, h]
        | false =>
            simp [server_step, gst_sync_server_set_paused, hp, ServerOp.now,
              get_sync_info, h]
  | set_stopped st n =>
      simp only [ServerOp.now] at h
      by_cases hst : s.stopped = st
      · simp [server_step, gst_sync_server_set_stopped, hst, ServerOp.now, h]
      · simp only [server_step, gst_sync_server_set_stopped, hst, if_false,
          ite_false, ServerOp.now]
        exact update_pipeline_step_facts s _ false n rfl h
  | eos n =>
      simp only [ServerOp.now] at h
      by_cases hend : (s.current_track + 1) % U64 = s.n_tracks
      · simp only [server_step, bus_eos, ServerOp.now]
        rw [if_pos (by simpa using hend)]
        exact update_pipeline_step_facts s _ true n rfl h
      · simp only [server_step, bus_eos, ServerOp.now]
        rw [if_neg (by simpa using hend)]
        exact update_pipeline_step_facts s _ true n rfl h

/-- Running any trace from a state whose base_time is below the clock yields
a published sequence satisfying the anchored chain property. -/
theorem server_run_pubchain (ops : List ServerOp) (s : GstSyncServer) (t : Nat)
    (hbt : s.base_time ≤ t) (hmono : ClockMono t ops) :
    PubChain s.base_time (server_run s ops).2 := by
  induction ops generalizing s t with
  | nil => trivial
  | cons op ops ih =>
      obtain ⟨h1, h2⟩ := hmono
      have hs : s.base_time ≤ op.now := le_trans hbt h1
      have hf := server_step_facts s op hs
      cases hpub : (server_step s op).2 with
      | none =>
          have hbt1 : (server_step s op).1.base_time = s.base_time := hf.2.2.2 hpub
          have := ih (server_step s op).1 op.now hf.2.1 h2
          rw [hbt1] at this
          simpa [server_run, hpub] using this
      | some i =>
          have hi := hf.2.2.1 i hpub
          have := ih (server_step s op).1 op.now hf.2.1 h2
          rw [← hi.1] at this
          refine ?_
          simp only [server_run, hpub, Option.toList_some, List.cons_append,
            List.nil_append]
          exact ⟨hi.1 ▸ hf.1, hi.2, this⟩

theorem pubchain_chain (bt : Nat) (l : List GstSyncServerInfo)
    (h : PubChain bt l) :
    List.Chain' (fun a b => a.base_time ≤ b.base_time ∧
      (a.base_time < b.base_time → b.base_time_offset = 0)) l := by
  induction l generalizing bt with
  | nil => simp
  | cons i rest ih =>
      simp only [PubChain] at h
      have hrest := h.2.2
      have hc := ih i.base_time hrest
      cases rest with
      | nil => simp
      | cons j rest2 =>
          simp only [PubChain] at hrest
          exact List.Chain'.cons ⟨hrest.1, hrest.2.1⟩ hc

/-- CLAIM C3. Across any sequence of server operations (start, set_playlist,
set_paused, set_stopped, end-of-stream handling) run with a monotonic system
clock, the sequence of base_time values in the SyncStates the server
publishes is monotonic non-decreasing, and every published SyncState whose
base_time is strictly greater than in the previously published one carries
base_time_offset 0. -/
theorem base_time_monotone (s : GstSyncServer) (ops : List ServerOp) (t : Nat)
    (hbt : s.base_time ≤ t) (hmono : ClockMono t ops) :
    List.Chain' (fun a b => a.base_time ≤ b.base_time ∧
      (a.base_time < b.base_time → b.base_time_offset = 0))
      (server_run s ops).2 :=
  pubchain_chain s.base_time (server_run s ops).2
    (server_run_pubchain ops s t hbt hmono)

/-- A freshly constructed server (gst_sync_server_init followed by property
defaults): empty playlist, zero base times, not started. -/
def initSrv : GstSyncServer :=
  { control_addr := some "0.0.0.0"
    clock_port := 0
    latency := 300000000
    base_time := 0
    base_time_offset := 0
    stream_start_delay := 500000000
    last_pause_time := CLOCK_TIME_NONE
    last_duration := 0
    uris := []
    durations := []
    n_tracks := 0
    current_track := 0
    server_started := false
    stopped := false
    paused := false
    pipeline_state := PState.null
    pipeline_base_time := 0
    pipeline_uri := "" }

/-- A concrete trace exercising every operation kind. -/
def opsW : List ServerOp :=
  [ServerOp.set_playlist ["file:///a", "file:///b"] [10, CLOCK_TIME_NONE] 0 0,
   ServerOp.start 5,
   ServerOp.set_paused true 8,
   ServerOp.set_paused false 9,
   ServerOp.eos 12,
   ServerOp.set_stopped true 15,
   ServerOp.set_stopped false 20]

/-- Witness for C3 on a concrete trace from a fresh server. -/
theorem base_time_monotone_witness :
    initSrv.base_time ≤ 0 ∧ ClockMono 0 opsW ∧
    List.Chain' (fun a b => a.base_time ≤ b.base_time ∧
      (a.base_time < b.base_time → b.base_time_offset = 0))
      (server_run initSrv opsW).2 :=
  ⟨by decide, by decide, base_time_monotone initSrv opsW 0 (by decide) (by decide)⟩

/-! Client playback state machine (sync-client.c): the pieces the claims are
about - update_pipeline's URI selection and advance bookkeeping, the
update_sync_info diff dispatch, and the fast-seek decision in bus_cb. -/

/-- The current track index read out of a SyncState's playlist
(gst_sync_server_playlist_get_current_track after
gst_sync_server_info_get_playlist; the C code would dereference a NULL
playlist, which never occurs for a SyncState carrying one). -/
def info_current_track (i : GstSyncServerInfo) : Nat :=
  (i.playlist.map Playlist.current_track).getD 0

/-- The number of tracks in a SyncState's playlist. -/
def info_n_tracks (i : GstSyncServerInfo) : Nat :=
  (i.playlist.map (fun pl => pl.tracks.length)).getD 0

/-- update_pipeline in sync-client.c.  Returns none when the function
returns before programming a URI (advance past the last track, or advance
with no known duration to skip by); otherwise returns the updated cached
SyncState together with the index used for the uris array read
(uri = uris[current_track]).  The C code performs that array read without
any bounds check, and in the advance path it reads durations[current_track]
first, equally unchecked; there is no special case for the current_track ==
NONE sentinel. -/
def client_update_pipeline (info : GstSyncServerInfo) (last_duration : Nat)
    (advance : Bool) : Option (GstSyncServerInfo × Nat) :=
  match info.playlist with
  | none => none
  | some pl =>
      let n := pl.tracks.length
      let ct := pl.current_track
      if advance then
        if (ct + 1) % U64 = n then none
        else
          let dk := (pl.tracks.map Prod.snd).getD ct 0
          if dk ≠ CLOCK_TIME_NONE ∨ last_duration ≠ CLOCK_TIME_NONE then
            let add := if dk ≠ CLOCK_TIME_NONE then dk else last_duration
            let bto := ((info.base_time_offset + add) % U64 +
              info.stream_start_delay) % U64
            let ct' := (ct + 1) % U64
            let newpl : Option Playlist := some { pl with current_track := ct' }
            let info' := { info with base_time_offset := bto, playlist := newpl }
            some (info', ct')
          else none
      else some (info, ct)

/-- The action update_sync_info takes on a non-first SyncState update: it
compares exactly one changed aspect in priority order stopped, current
track, paused, base_time; the first two and the last rebuild the pipeline
through NULL and call update_pipeline without advancing. -/
inductive ClientAction where
  | stop_change : ClientAction
  | track_change : ClientAction
  | pause_change : Bool → ClientAction
  | base_time_change : ClientAction
  | no_change : ClientAction
  deriving DecidableEq, Repr

/-- Diff dispatch of update_sync_info in sync-client.c (the else branch for a
client that already holds a SyncState). -/
def update_sync_info_action (old_info new_info : GstSyncServerInfo) : ClientAction :=
  if old_info.stopped ≠ new_info.stopped then ClientAction.stop_change
  else if info_current_track old_info ≠ info_current_track new_info then
    ClientAction.track_change
  else if old_info.paused ≠ new_info.paused then
    ClientAction.pause_change new_info.paused
  else if old_info.base_time ≠ new_info.base_time then
    ClientAction.base_time_change
  else ClientAction.no_change

/-- A legal SyncState as delivered during playback of a one-track playlist,
with current_track set to the NONE end-of-playlist sentinel. -/
def infoNone : GstSyncServerInfo :=
  { version := 1
    clock_addr := some "10.0.0.1"
    clock_port := 3490
    playlist := some { current_track := CLOCK_TIME_NONE
                       tracks := [("file:///a", 10)] }
    base_time := 100
    base_time_offset := 7
    latency := 300000000
    stream_start_delay := 3
    stopped := false
    paused := false }

/-- The same SyncState before the end of the playlist (current_track 0). -/
def infoTrack0 : GstSyncServerInfo := { infoNone with
  playlist := some { current_track := 0, tracks := [("file:///a", 10)] } }

/-- CLAIM C8 evaluated at its failing input (code bug).  A SyncState whose
current_track is the NONE sentinel and whose track list is non-empty does
reach the client's update_pipeline (the diff dispatch classifies it as a
track change, which drives the pipeline to NULL and calls
update_pipeline without advancing), and update_pipeline then selects a URI
using index NONE = 2^64 - 1, which is not smaller than the track count 1:
an out-of-bounds uris array read, contradicting the claim that the client
stays idle and the index stays in bounds. -/
theorem client_none_sentinel_oob :
    update_sync_info_action infoTrack0 infoNone = ClientAction.track_change ∧
    (client_update_pipeline infoNone 0 false).map Prod.snd =
      some CLOCK_TIME_NONE ∧
    info_n_tracks infoNone = 1 ∧ 1 ≤ CLOCK_TIME_NONE := by
  refine ⟨by decide, by decide, by decide, ?_⟩
  unfold CLOCK_TIME_NONE U64
  omega

/-! Fast-seek alignment (bus_cb in sync-client.c, GST_MESSAGE_STATE_CHANGED
branch). -/

/-- The three-valued seek flag. -/
inductive SeekState where
  | need_seek : SeekState
  | in_seek : SeekState
  | done_seek : SeekState
  deriving DecidableEq, Repr

/-- DEFAULT_SEEK_TOLERANCE: 200 GST_MSECOND, in nanoseconds (a gint64
constant). -/
def DEFAULT_SEEK_TOLERANCE : Nat := 200 * 1000000

/-- Outcome of the state-changed handler: the position passed to
gst_element_seek_simple when a seek was issued, and the final value of the
seek flag. -/
structure SeekDecision where
  seek_attempted : Option Int
  seek_state : SeekState
  deriving DecidableEq, Repr

/-- The GST_MESSAGE_STATE_CHANGED branch of bus_cb in sync-client.c.  Nothing
happens unless the seek flag is NEED_SEEK; the handler then bails out when
the transition is neither from PAUSED nor to PLAYING.  Otherwise it computes
cur_pos = now - base_time - base_time_offset in wrapping guint64 arithmetic
stored into a signed gint64, sets the flag to IN_SEEK, and: if cur_pos
exceeds the tolerance it issues one flushing KEY_UNIT SNAP_AFTER seek to
cur_pos, dropping the flag back to DONE_SEEK only if the seek call fails;
within the tolerance it issues no seek and drops the flag to DONE_SEEK. -/
def client_bus_state_changed (seek_state : SeekState) (old new : PState)
    (now : Nat) (info : GstSyncServerInfo) (seek_ok : Bool) : SeekDecision :=
  if seek_state ≠ SeekState.need_seek then
    { seek_attempted := none, seek_state := seek_state }
  else if old ≠ PState.paused ∧ new ≠ PState.playing then
    { seek_attempted := none, seek_state := seek_state }
  else
    let cur_pos : Int :=
      toInt64 (sub64 (sub64 now info.base_time) info.base_time_offset)
    if cur_pos > (DEFAULT_SEEK_TOLERANCE : Int) then
      if seek_ok then
        { seek_attempted := some cur_pos, seek_state := SeekState.in_seek }
      else
        { seek_attempted := some cur_pos, seek_state := SeekState.done_seek }
    else { seek_attempted := none, seek_state := SeekState.done_seek }

/-- CLAIM C9. For a non-live client (seek flag still NEED_SEEK) at the
PAUSED to PLAYING transition, with cur_pos the signed view of
now - base_time - base_time_offset: if cur_pos is within SEEK_TOLERANCE
(200 ms) no seek is issued and the seek flag ends at DONE_SEEK; if cur_pos
exceeds the tolerance, exactly one seek to cur_pos is issued and the flag is
IN_SEEK, falling back to DONE_SEEK if the seek call fails. -/
theorem fast_seek_decision (now : Nat) (info : GstSyncServerInfo)
    (seek_ok : Bool) :
    (toInt64 (sub64 (sub64 now info.base_time) info.base_time_offset) ≤
        (DEFAULT_SEEK_TOLERANCE : Int) →
      client_bus_state_changed SeekState.need_seek PState.paused PState.playing
        now info seek_ok =
        { seek_attempted := none, seek_state := SeekState.done_seek }) ∧
    ((DEFAULT_SEEK_TOLERANCE : Int) <
        toInt64 (sub64 (sub64 now info.base_time) info.base_time_offset) →
      client_bus_state_changed SeekState.need_seek PState.paused PState.playing
        now info seek_ok =
        { seek_attempted :=
            some (toInt64 (sub64 (sub64 now info.base_time) info.base_time_offset))
          seek_state := if seek_ok then SeekState.in_seek
                        else SeekState.done_seek }) := by
  constructor
  · intro hle
    simp [client_bus_state_changed, not_lt.mpr hle]
  · intro hgt
    cases seek_ok <;> simp [client_bus_state_changed, hgt]

/-- Witness for C9: a client whose computed position is about 100 ms (within
the 200 ms tolerance) issues no seek and goes straight to DONE_SEEK. -/
theorem fast_seek_decision_witness :
    client_bus_state_changed SeekState.need_seek PState.paused PState.playing
      100000050 infoTrack0 true =
      { seek_attempted := none, seek_state := SeekState.done_seek } :=
  (fast_seek_decision 100000050 infoTrack0 true).1 (by decide)

/-! Control plane, server side (sync-control-tcp-server.c): the hello
handling of get_client_info and the per-session run_cb. -/

mutual
/-- Whether a JSON node is representable as a GVariant when deserialized with
an open signature (external json-glib behaviour used for the a(sv) member
values of the client config): scalars and nested containers are, JSON null is
not. -/
def variantOk : Json → Bool
  | Json.null => false
  | Json.jbool _ => true
  | Json.jint _ => true
  | Json.jstr _ => true
  | Json.jarr xs => variantListOk xs
  | Json.jobj kvs => variantMembersOk kvs

/-- variantOk over the elements of a JSON array. -/
def variantListOk : List Json → Bool
  | [] => true
  | x :: xs => variantOk x && variantListOk xs

/-- variantOk over the member values of a JSON object. -/
def variantMembersOk : List (String × Json) → Bool
  | [] => true
  | kv :: kvs => variantOk kv.2 && variantMembersOk kvs
end

/-- json_gvariant_deserialize of a non-NULL node with the a(sv) dictionary
signature (external json-glib behaviour): succeeds exactly on JSON objects
whose member values are variant-representable. -/
def configOk : Json → Bool
  | Json.jobj kvs => variantMembersOk kvs
  | _ => false

/-- json_object_get_string_member: returns the member's string value, or NULL
(after a glib critical) when the member is absent, not a value node, or not a
string. -/
def getStringMember (j : Json) (k : String) : Option String :=
  match j.getMember k with
  | some (Json.jstr a) => some a
  | _ => none

/-- Result of get_client_info on one session's first frame: whether a
client-joined signal was emitted (and with which id payload, possibly NULL),
the id value returned to run_cb, and whether the process crashed in the
error path. -/
structure HelloStep where
  emitted_joined : Option (Option String)
  returned_id : Option String
  crashed : Bool
  deriving DecidableEq, Repr

/-- get_client_info in sync-control-tcp-server.c.  The frame argument is the
result of json_from_string on the received bytes (none for a read error or
malformed JSON, in which case the function just returns NULL).  When the
frame is valid JSON but not an object, json_node_get_object yields NULL and
json_object_get_member (NULL, config) yields NULL; likewise when the config
member is absent.  In both cases json_gvariant_deserialize is called on a
NULL node: it returns NULL by a g_return_val_if_fail without setting the
GError, and the error path then dereferences err->message - a NULL pointer
dereference that crashes the process.  When config is present but does not
deserialize as a(sv), the GError is set and the function logs and returns
NULL gracefully.  When config deserializes, client-joined is emitted
unconditionally with whatever json_object_get_string_member returned for id -
including NULL when id is absent or not a string. -/
def get_client_info (frame : Option Json) : HelloStep :=
  match frame with
  | none => { emitted_joined := none, returned_id := none, crashed := false }
  | some j =>
      match j.getMember "config" with
      | none => { emitted_joined := none, returned_id := none, crashed := true }
      | some c =>
          if configOk c then
            let id := getStringMember j "id"
            { emitted_joined := some id, returned_id := id, crashed := false }
          else { emitted_joined := none, returned_id := none, crashed := false }

/-- Observable outcome of one session handler (run_cb) up to entering its
update loop. -/
structure SessionOutcome where
  emitted_joined : Option (Option String)
  sync_sent : Bool
  closed_before_loop : Bool
  crashed : Bool
  deriving DecidableEq, Repr

/-- run_cb in sync-control-tcp-server.c: read the hello via get_client_info;
if no id came back, return immediately (the threaded socket service then
closes the connection) without sending anything; otherwise send the current
sync info and enter the per-session update loop. -/
def run_cb (frame : Option Json) : SessionOutcome :=
  let h := get_client_info frame
  if h.crashed then
    { emitted_joined := h.emitted_joined, sync_sent := false,
      closed_before_loop := false, crashed := true }
  else
    match h.returned_id with
    | none =>
        { emitted_joined := h.emitted_joined, sync_sent := false,
          closed_before_loop := true, crashed := false }
    | some _ =>
        { emitted_joined := h.emitted_joined, sync_sent := true,
          closed_before_loop := false, crashed := false }

/-- A syntactically valid ClientHello: a JSON object carrying a string id and
a config member that deserializes as an a(sv) dictionary. -/
def validClientHello (j : Json) : Bool :=
  (getStringMember j "id").isSome &&
    (match j.getMember "config" with
     | some c => configOk c
     | none => false)

/-- A first frame that is valid JSON with a valid (empty) config dictionary
but no id member: not a valid ClientHello. -/
def helloNoId : Json := Json.jobj [("config", Json.jobj [])]

/-- A first frame that is valid JSON with a valid id but no config member. -/
def helloNoConfig : Json := Json.jobj [("id", Json.jstr "kitchen-display")]

/-- A first frame whose config member is present but not an a(sv)
dictionary. -/
def helloBadConfig : Json :=
  Json.jobj [("id", Json.jstr "kitchen-display"), ("config", Json.jint 42)]

/-- CLAIM C6 evaluated at its failing input (code bug).  The frame with a
valid config dictionary but no id string is not a valid ClientHello, and the
session does close with no SyncState sent; but contrary to the claim, a
client-joined event IS raised - with a NULL id - because get_client_info
emits the signal before run_cb checks the returned id. -/
theorem invalid_hello_emits_joined :
    validClientHello helloNoId = false ∧
    run_cb (some helloNoId) =
      { emitted_joined := some none, sync_sent := false,
        closed_before_loop := true, crashed := false } := by
  constructor <;> rfl

/-- CLAIM C10 evaluated (code bug).  A hello with a valid id whose config
member is present but not a dictionary is rejected exactly as the claim says
(no client-joined, no SyncState, session closed); but a hello with a valid id
whose config member is absent crashes the server process: the error path
dereferences a NULL GError, since json_gvariant_deserialize of a NULL node
returns NULL without setting the error. -/
theorem absent_config_crashes :
    run_cb (some helloBadConfig) =
      { emitted_joined := none, sync_sent := false,
        closed_before_loop := true, crashed := false } ∧
    run_cb (some helloNoConfig) =
      { emitted_joined := none, sync_sent := false,
        closed_before_loop := false, crashed := true } := by
  constructor <;> rfl

/-! Control plane, client side (sync-control-tcp-client.c): read_done_cb. -/

/-- Observable outcome of one read completion on the control client: the
SyncState delivered through the sync-info notification, if any, and whether
the handler closed the connection (it never does; on any failure it merely
logs and stops re-arming the read). -/
structure ClientReadStep where
  delivered : Option GstSyncServerInfo
  disconnected : Bool
  deriving DecidableEq, Repr

/-- read_done_cb in sync-control-tcp-client.c: parse the received buffer as a
GstSyncServerInfo via json_gobject_from_data (frame none models a read error
or malformed JSON); on failure log a warning and return - the connection
stays open; on success notify sync-info and keep reading.  No version check
appears anywhere in this path. -/
def read_done_cb (frame : Option Json) : ClientReadStep :=
  { delivered := frame.bind deserializeInfo, disconnected := false }

/-- A legal SyncState frame carrying version 2, which no client of this
library writes. -/
def infoV2 : GstSyncServerInfo := { infoTrack0 with version := 2 }

/-- Counterexample to CLAIM C7 as stated: the serialized SyncState with
version 2 is deserialized successfully and delivered unchanged - no
InvalidFrame error on version mismatch - and the client does not disconnect. -/
theorem version_mismatch_accepted :
    (read_done_cb (some (serializeInfo infoV2))).delivered = some infoV2 ∧
    infoV2.version = 2 ∧
    (read_done_cb (some (serializeInfo infoV2))).disconnected = false := by
  refine ⟨by decide, by decide, rfl⟩

/-- CLAIM C7 (amended).  Deserialization of a SyncState frame yields no
SyncState on malformed JSON or a toplevel that is not a JSON object; members
that are absent or fail to deserialize are silently skipped with the property
defaults retained; no version check is performed, so a well-formed frame of
any version - in particular any legal serialized SyncState - is accepted and
delivered unchanged; and the client never disconnects in its read path. -/
theorem deserialize_failure_modes (j : Json) (s : GstSyncServerInfo)
    (h : legalInfo s) :
    (read_done_cb none).delivered = none ∧
    ((∀ kvs, j ≠ Json.jobj kvs) → (read_done_cb (some j)).delivered = none) ∧
    (read_done_cb (some j)).disconnected = false ∧
    (read_done_cb (some (serializeInfo s))).delivered = some s := by
  refine ⟨rfl, fun hne => ?_, rfl, info_serialize_roundtrip s h⟩
  cases j with
  | jobj kvs => exact absurd rfl (hne kvs)
  | null => rfl
  | jbool b => rfl
  | jint i => rfl
  | jstr a => rfl
  | jarr xs => rfl

/-- The SyncState example of the wire-format section, with an unknown first
track duration. -/
def sampleInfo : GstSyncServerInfo :=
  { version := 1
    clock_addr := some "192.0.2.10"
    clock_port := 35421
    playlist := some { current_track := 0
                       tracks := [("https://ex/a", CLOCK_TIME_NONE),
                                  ("https://ex/b", 120000000000)] }
    base_time := 1723456789000000000
    base_time_offset := 0
    latency := 300000000
    stream_start_delay := 500000000
    stopped := false
    paused := false }

/-- Witness for the amended C7: a legal frame is delivered unchanged (the
frame is built from sampleInfo, and the non-object part is instantiated at a
bare integer frame). -/
theorem deserialize_failure_modes_witness :
    legalInfo sampleInfo ∧
    (read_done_cb (some (serializeInfo sampleInfo))).delivered =
      some sampleInfo :=
  ⟨by decide,
    (deserialize_failure_modes (Json.jint 0) sampleInfo (by decide)).2.2.2⟩

/-- CLAIM C1.  For every legal SyncState s, deserializing the bytes produced
by serializing s yields a SyncState equal to s; in particular a track
duration equal to UNKNOWN_DURATION (the all-ones 64-bit value) survives the
serialize/deserialize round trip unchanged - see the witness, whose playlist
carries such a duration. -/
theorem sync_state_roundtrip (s : GstSyncServerInfo) (h : legalInfo s) :
    deserializeInfo (serializeInfo s) = some s :=
  info_serialize_roundtrip s h

/-- Witness for C1 at the wire-format example state, whose first track
duration is UNKNOWN_DURATION. -/
theorem sync_state_roundtrip_witness :
    legalInfo sampleInfo ∧
    deserializeInfo (serializeInfo sampleInfo) = some sampleInfo :=
  ⟨by decide, sync_state_roundtrip sampleInfo (by decide)⟩

end GstSync
